import Mathlib

/-!
Verification of the Session Progress Guard of the recipe-feasibility survey
application (`app/main.py`, `app/db.py`).

The embedding below translates the Python functions of the guard into Lean.
Timestamps (ISO strings produced by `datetime.now().isoformat()` and compared
via `datetime` arithmetic) are modelled as integer seconds; `datetime.now()`
becomes an explicit `now : Int` parameter.  Python dicts are modelled as
association lists with dict-update semantics (`setKey` overwrites in place).
Log messages have no state effect and are dropped; the two warning messages of
`validate_response_time` are modelled by which branch fired (`RTWarning`).
-/

namespace SurveyGuard

/-- A form/JSON value as stored inside a step's response payload. -/
inductive Val where
  | vInt (n : Int)
  | vStr (s : String)
  | vStrList (l : List String)
  | vNull
deriving DecidableEq, Repr

/-- Result record of `validate_attention_checks` (`main.py:196`): each field is
`None` (not presented), `True` (passed) or `False` (failed) as in the Python
dict, plus the running `overall_passed` flag. -/
structure AttentionResults where
  recipe_attention_check_passed : Option Bool
  post_survey_attention_check_passed : Option Bool
  overall_passed : Bool
deriving DecidableEq, Repr

/-- A value of the heterogeneous `participant.responses` dict: step payloads
are dicts, `completed_time` is a bare timestamp string, and
`attention_check_validation` holds the validation result dict. -/
inductive RVal where
  | payload (kv : List (String × Val))
  | timeStr (t : Int)
  | attValidation (r : AttentionResults)
deriving DecidableEq, Repr

/-- Association-list lookup, the semantics of Python `dict[k]` / `k in dict`. -/
def lookupKey {κ α : Type} [DecidableEq κ] : List (κ × α) → κ → Option α
  | [], _ => none
  | (k', v) :: rest, k => if k' = k then some v else lookupKey rest k

/-- Association-list update, the semantics of Python `dict[k] = v`: overwrites
the existing binding in place, otherwise appends. -/
def setKey {κ α : Type} [DecidableEq κ] : List (κ × α) → κ → α → List (κ × α)
  | [], k, v => [(k, v)]
  | (k', v') :: rest, k, v =>
      if k' = k then (k, v) :: rest else (k', v') :: setKey rest k v

abbrev Payload := List (String × Val)

/-- The `Participant` pydantic model (`main.py:102`). -/
structure Participant where
  id : String
  selected_recipes : List Int
  current_step : Int
  responses : List (String × RVal)
  completed : Bool
  start_time : Option Int
  last_activity : Option Int
  step_times : List (String × Int)
deriving DecidableEq, Repr

/-- `NUM_RECIPES_PER_PARTICIPANT` (`main.py:83`). -/
def NUM_RECIPES_PER_PARTICIPANT : Int := 5

/-- `SESSION_TIMEOUT_MINUTES` (`main.py:85`). -/
def SESSION_TIMEOUT_MINUTES : Int := 60

/-- `MIN_RESPONSE_TIME_SECONDS` (`main.py:86`). -/
def MIN_RESPONSE_TIME_SECONDS : Int := 30

/-- `MAX_RESPONSE_TIME_MINUTES` (`main.py:87`). -/
def MAX_RESPONSE_TIME_MINUTES : Int := 10

/-- `STEP_ROUTES` (`main.py:90`). -/
def STEP_ROUTES : List (Int × String) :=
  [(0, "/demographics"), (1, "/recipe_eval_1"), (2, "/recipe_eval_2"),
   (3, "/recipe_eval_3"), (4, "/recipe_eval_4"), (5, "/recipe_eval_5"),
   (6, "/post_survey"), (7, "/debriefing")]

/-- `validate_step_access` (`main.py:117`). -/
def validate_step_access (participant : Option Participant) (requested_step : Int) : Bool :=
  match participant with
  | none => requested_step == 0
  | some p => requested_step ≤ p.current_step

/-- `get_correct_step_redirect` (`main.py:128`). -/
def get_correct_step_redirect (participant : Option Participant) : String :=
  match participant with
  | none => "/demographics"
  | some p =>
      if p.completed then "/debriefing"
      else if p.current_step ≥ (STEP_ROUTES.length : Int) then "/debriefing"
      else (lookupKey STEP_ROUTES p.current_step).getD "/demographics"

/-- `is_session_expired` (`main.py:146`).  A missing/unparseable
`last_activity` is `none` here; both make the Python function return `False`. -/
def is_session_expired (participant : Option Participant) (now : Int) : Bool :=
  match participant with
  | none => false
  | some p =>
      match p.last_activity with
      | none => false
      | some t => now - t > SESSION_TIMEOUT_MINUTES * 60

/-- `update_participant_activity` (`main.py:158`). -/
def update_participant_activity (p : Participant) (now : Int) : Participant :=
  { p with last_activity := some now }

/-- Which warning branch of `validate_response_time` fired (the Python code
stores a formatted message string; only the branch identity matters here). -/
inductive RTWarning where
  | fast
  | slow
deriving DecidableEq, Repr

/-- Result dict of `validate_response_time` (`main.py:167`). -/
structure TimeValidation where
  valid : Bool
  time_spent_seconds : Option Int
  warning : Option RTWarning
deriving DecidableEq, Repr

/-- Python `step_type.startswith(pre)` on the step-name strings. -/
def strStartsWith (s pre : String) : Bool :=
  pre.data.isPrefixOf s.data

/-- `validate_response_time` (`main.py:162`).  `start_time` is a well-formed
timestamp (the `except` branch for unparseable strings is unreachable then). -/
def validate_response_time (start_time : Int) (step_type : String) (now : Int) :
    TimeValidation :=
  let time_spent := now - start_time
  if strStartsWith step_type "recipe_eval" && decide (time_spent < MIN_RESPONSE_TIME_SECONDS) then
    { valid := false, time_spent_seconds := some time_spent, warning := some .fast }
  else if time_spent > MAX_RESPONSE_TIME_MINUTES * 60 then
    { valid := true, time_spent_seconds := some time_spent, warning := some .slow }
  else
    { valid := true, time_spent_seconds := some time_spent, warning := none }

/-- `participant.responses.get(step, {})` restricted to dict-shaped values,
as used by `validate_attention_checks`; the keys it is applied to only ever
hold dict payloads. -/
def getStepPayload (p : Participant) (step : String) : Payload :=
  match lookupKey p.responses step with
  | some (.payload kv) => kv
  | _ => []

/-- `validate_attention_checks` (`main.py:196`): the recipe check in step 3
expects the numeric answer `3`, the post-survey check expects the token
`"gemini"`; `overall_passed` starts `True` and is cleared by each presented
check that fails. -/
def validate_attention_checks (p : Participant) : AttentionResults :=
  let recipe_eval_3 := getStepPayload p "recipe_eval_3"
  let r1 : AttentionResults :=
    match lookupKey recipe_eval_3 "attention_check_recipe" with
    | some actual =>
        let passed : Bool := actual = Val.vInt 3
        { recipe_attention_check_passed := some passed,
          post_survey_attention_check_passed := none,
          overall_passed := passed }
    | none =>
        { recipe_attention_check_passed := none,
          post_survey_attention_check_passed := none,
          overall_passed := true }
  let post_survey := getStepPayload p "post_survey"
  match lookupKey post_survey "attention_check_post" with
  | some actual =>
      let passed : Bool := actual = Val.vStr "gemini"
      { r1 with post_survey_attention_check_passed := some passed,
                overall_passed := r1.overall_passed && passed }
  | none => r1

/-- A row of the `participants` table as selected by `check_prolific_duplicate`
(`db.py:616`): `participant_id, start_time, completed, current_step,
last_activity_at`, plus the `prolific_pid` column the query filters on. -/
structure DBRow where
  participant_id : String
  start_time : Int
  completed : Bool
  current_step : Int
  last_activity_at : Option Int
  prolific_pid : Option String
deriving DecidableEq, Repr

/-- Insert a row into a list sorted by `start_time`, keeping it sorted. -/
def insertByStart (r : DBRow) : List DBRow → List DBRow
  | [] => [r]
  | x :: xs => if r.start_time ≤ x.start_time then r :: x :: xs else x :: insertByStart r xs

/-- Sorting by `start_time`, the model of the query's `ORDER BY start_time`. -/
def sortByStartTime : List DBRow → List DBRow
  | [] => []
  | x :: xs => insertByStart x (sortByStartTime xs)

/-- `check_prolific_duplicate` (`db.py:603`): rows of the `participants` table
whose `prolific_pid` equals the given id, ordered by `start_time`; an empty
(falsy) id returns no rows. -/
def check_prolific_duplicate (prolific_pid : String) (db : List DBRow) : List DBRow :=
  if prolific_pid = "" then []
  else sortByStartTime (db.filter (fun r => r.prolific_pid = some prolific_pid))

/-- Result dict of `detect_session_manipulation` (`main.py:236`); the warning
message is modelled by its presence. -/
structure ManipulationResults where
  multiple_sessions_detected : Bool
  session_details : List DBRow
  warning : Bool
deriving DecidableEq, Repr

/-- `detect_session_manipulation` (`main.py:231`): with a falsy (`None` or
empty) Prolific id the default result is returned; otherwise the duplicates
are enumerated and the flag is set when more than one session was found. -/
def detect_session_manipulation (_participant_id : String)
    (prolific_pid : Option String) (db : List DBRow) : ManipulationResults :=
  match prolific_pid with
  | none => { multiple_sessions_detected := false, session_details := [], warning := false }
  | some pid =>
      if pid = "" then
        { multiple_sessions_detected := false, session_details := [], warning := false }
      else
        let duplicates := check_prolific_duplicate pid db
        if duplicates.length > 1 then
          { multiple_sessions_detected := true, session_details := duplicates, warning := true }
        else
          { multiple_sessions_detected := false, session_details := [], warning := false }

theorem mem_insertByStart {x r : DBRow} {l : List DBRow} :
    x ∈ insertByStart r l ↔ x = r ∨ x ∈ l := by
  induction l with
  | nil => simp [insertByStart]
  | cons y ys ih =>
      by_cases h : r.start_time ≤ y.start_time
      · simp [insertByStart, h]
      · simp [insertByStart, h, ih]
        tauto

theorem length_insertByStart (r : DBRow) (l : List DBRow) :
    (insertByStart r l).length = l.length + 1 := by
  induction l with
  | nil => simp [insertByStart]
  | cons y ys ih =>
      by_cases h : r.start_time ≤ y.start_time
      · simp [insertByStart, h]
      · simp [insertByStart, h, ih]

theorem pairwise_insertByStart {r : DBRow} {l : List DBRow}
    (h : l.Pairwise (fun a b => a.start_time ≤ b.start_time)) :
    (insertByStart r l).Pairwise (fun a b => a.start_time ≤ b.start_time) := by
  induction l with
  | nil => simp [insertByStart]
  | cons y ys ih =>
      rcases List.pairwise_cons.mp h with ⟨hy, hys⟩
      by_cases hle : r.start_time ≤ y.start_time
      · simp only [insertByStart, if_pos hle]
        refine List.pairwise_cons.mpr ⟨?_, h⟩
        intro b hb
        rcases List.mem_cons.mp hb with rfl | hb
        · exact hle
        · exact le_trans hle (hy b hb)
      · simp only [insertByStart, if_neg hle]
        refine List.pairwise_cons.mpr ⟨?_, ih hys⟩
        intro b hb
        rcases mem_insertByStart.mp hb with rfl | hb
        · exact le_of_not_le hle
        · exact hy b hb

theorem mem_sortByStartTime {x : DBRow} {l : List DBRow} :
    x ∈ sortByStartTime l ↔ x ∈ l := by
  induction l with
  | nil => simp [sortByStartTime]
  | cons y ys ih => simp [sortByStartTime, mem_insertByStart, ih]

theorem length_sortByStartTime (l : List DBRow) :
    (sortByStartTime l).length = l.length := by
  induction l with
  | nil => rfl
  | cons y ys ih => simp [sortByStartTime, length_insertByStart, ih]

theorem pairwise_sortByStartTime (l : List DBRow) :
    (sortByStartTime l).Pairwise (fun a b => a.start_time ≤ b.start_time) := by
  induction l with
  | nil => simp [sortByStartTime]
  | cons y ys ih => exact pairwise_insertByStart ih

/-- The process-wide `participants` dict (`main.py:114`), keyed by id. -/
abbrev Store := List (String × Participant)

/-- Outcome of resolving `get_participant_from_session` (`main.py:297`): the
participant handed to the handler, the `participants` dict and the
`request.session` binding of `"participant_id"` after resolution. -/
structure SessionResolution where
  participant : Option Participant
  store : Store
  session : Option String
deriving DecidableEq, Repr

/-- `get_participant_from_session` (`main.py:297`).  `sess` is the
`"participant_id"` binding of `request.session`.  The database-reconstruction
branch (`main.py:319`–`main.py:412`, converting `get_participant_data` rows
into a `Participant`) is abstracted as the parameter `dbData`; its expiry
check and caching (`main.py:402`–`main.py:411`) are modelled explicitly.
Note that the in-memory expiry branch clears the request session
(`request.session.clear()`, `main.py:312`) but leaves the `participants` dict
untouched, while the database branch returns without clearing the session. -/
def get_participant_from_session (store : Store) (sess : Option String)
    (now : Int) (dbData : String → Option Participant) : SessionResolution :=
  match sess with
  | none => { participant := none, store := store, session := none }
  | some participant_id =>
      match lookupKey store participant_id with
      | some p =>
          if is_session_expired (some p) now then
            { participant := none, store := store, session := none }
          else
            let p1 := update_participant_activity p now
            { participant := some p1, store := setKey store participant_id p1,
              session := some participant_id }
      | none =>
          match dbData participant_id with
          | some p =>
              if is_session_expired (some p) now then
                { participant := none, store := store, session := some participant_id }
              else
                let p1 := update_participant_activity p now
                { participant := some p1, store := setKey store participant_id p1,
                  session := some participant_id }
          | none =>
              { participant := none, store := store, session := some participant_id }

/-- An HTTP-level handler outcome: a redirect, a rendered template page, the
404 raised by the step-bounds check, or an unhandled exception (a list index
out of range). -/
inductive HResp where
  | redirect (url : String)
  | page (name : String)
  | notFound
  | error
deriving DecidableEq, Repr

/-- `submit_demographics` (`main.py:585`), given the already-resolved
participant.  There is no `validate_step_access` call in this handler: any
existing participant may re-submit demographics, and `current_step` is set to
`1` unconditionally (`main.py:612`).  The response-time validation
(`main.py:598`–`main.py:602`) only logs and has no state effect. -/
def submit_demographics_h (participant : Option Participant)
    (age gender education : String) (_now : Int) : Option Participant × HResp :=
  match participant with
  | none => (none, .redirect "/")
  | some p =>
      let p1 := { p with
        responses := setKey p.responses "demographics"
          (.payload [("age", .vStr age), ("gender", .vStr gender),
                     ("education", .vStr education)]) }
      let p2 := { p1 with current_step := 1 }
      (some p2, .redirect "/recipe_eval_1")

/-- GET `recipe_eval_{step_id}` (`main.py:623`), given the resolved
participant: step-access validation, bounds check, step-start-time recording,
then the recipe page (an out-of-range `selected_recipes` index raises). -/
def recipe_evaluation_get_h (participant : Option Participant)
    (step_id now : Int) : Option Participant × HResp :=
  match participant with
  | none => (none, .redirect "/")
  | some p =>
      if !(validate_step_access (some p) step_id) then
        (some p, .redirect (get_correct_step_redirect (some p)))
      else if step_id < 1 || step_id > NUM_RECIPES_PER_PARTICIPANT then
        (some p, .notFound)
      else
        let p1 := { p with
          step_times := setKey p.step_times ("recipe_eval_" ++ toString step_id) now }
        match p1.selected_recipes.get? (step_id - 1).toNat with
        | none => (some p1, .error)
        | some _ => (some p1, .page "recipe_evaluation")

/-- The form fields of `submit_recipe_evaluation` (`main.py:656`);
`attention_check_recipe` is an optional form field (`Form(None)`). -/
structure EvalForm where
  recipe_name : String
  completeness_rating : Int
  healthiness_rating : Int
  tastiness_rating : Int
  feasibility_rating : Int
  would_make : Int
  ingredients_complexity : Int
  instructions_complexity : Int
  ingredients_correctness : Int
  instructions_correctness : Int
  nutrition_correctness : Int
  comments : Option String
  attention_check_recipe : Option Int
deriving DecidableEq, Repr

/-- POST `recipe_eval_{step_id}` (`main.py:656`), given the resolved
participant.  `recipeCategory` abstracts `recipes_df.iloc[i]["Category"]`.
The stored `response_time_seconds` equals `validate_response_time`'s
`time_spent_seconds`, which is `now` minus the recorded step start.  The
attention-check field is stored (possibly as null) only for step 3
(`main.py:728`), and `current_step` is advanced only when
`step_id >= current_step` (`main.py:734`). -/
def submit_recipe_evaluation_h (participant : Option Participant) (step_id : Int)
    (form : EvalForm) (recipeCategory : Int → String) (now : Int) :
    Option Participant × HResp :=
  match participant with
  | none => (none, .redirect "/")
  | some p =>
      if !(validate_step_access (some p) step_id) then
        (some p, .redirect (get_correct_step_redirect (some p)))
      else if step_id < 1 || step_id > NUM_RECIPES_PER_PARTICIPANT then
        (some p, .notFound)
      else
        let evalKey := "recipe_eval_" ++ toString step_id
        let eval_base : Payload :=
          match lookupKey p.step_times evalKey with
          | some start => [("response_time_seconds", .vInt (now - start))]
          | none => []
        match p.selected_recipes.get? (step_id - 1).toNat with
        | none => (some p, .error)
        | some recipe_index =>
            let eval_data : Payload := eval_base ++
              [("recipe_id", .vInt recipe_index),
               ("recipe_name", .vStr form.recipe_name),
               ("recipe_category", .vStr (recipeCategory recipe_index)),
               ("completeness_rating", .vInt form.completeness_rating),
               ("healthiness_rating", .vInt form.healthiness_rating),
               ("tastiness_rating", .vInt form.tastiness_rating),
               ("feasibility_rating", .vInt form.feasibility_rating),
               ("would_make", .vInt form.would_make),
               ("ingredients_complexity", .vInt form.ingredients_complexity),
               ("instructions_complexity", .vInt form.instructions_complexity),
               ("ingredients_correctness", .vInt form.ingredients_correctness),
               ("instructions_correctness", .vInt form.instructions_correctness),
               ("nutrition_correctness", .vInt form.nutrition_correctness),
               ("comments", .vStr (form.comments.getD ""))]
            let eval_data : Payload :=
              if step_id = 3 then
                eval_data ++ [("attention_check_recipe",
                  match form.attention_check_recipe with
                  | some n => .vInt n
                  | none => .vNull)]
              else eval_data
            let p1 := { p with responses := setKey p.responses evalKey (.payload eval_data) }
            let p2 := if step_id ≥ p1.current_step then { p1 with current_step := step_id + 1 } else p1
            if step_id < NUM_RECIPES_PER_PARTICIPANT then
              (some p2, .redirect ("/recipe_eval_" ++ toString (step_id + 1)))
            else
              (some p2, .redirect "/post_survey")

/-- The form fields of `submit_post_survey` (`main.py:767`); every field,
including `attention_check_post`, is a required form field (`Form(...)`). -/
structure PostSurveyForm where
  cooking_skills : Int
  new_recipe_frequency : String
  recipe_factors : List String
  recipe_usage_frequency : String
  cooking_frequency : String
  trust_human_recipes : Int
  trust_ai_recipes : Int
  ai_recipe_usage : String
  comments : Option String
  attention_check_post : String
deriving DecidableEq, Repr

/-- POST `post_survey` (`main.py:767`), given the resolved participant: access
to step 6 is validated, the payload (always containing
`attention_check_post`) is stored, and `current_step` is set to 7. -/
def submit_post_survey_h (participant : Option Participant)
    (form : PostSurveyForm) (_now : Int) : Option Participant × HResp :=
  match participant with
  | none => (none, .redirect "/")
  | some p =>
      if !(validate_step_access (some p) 6) then
        (some p, .redirect (get_correct_step_redirect (some p)))
      else
        let p1 := { p with
          responses := setKey p.responses "post_survey"
            (.payload
              [("cooking_skills", .vInt form.cooking_skills),
               ("new_recipe_frequency", .vStr form.new_recipe_frequency),
               ("recipe_factors", .vStrList form.recipe_factors),
               ("recipe_usage_frequency", .vStr form.recipe_usage_frequency),
               ("cooking_frequency", .vStr form.cooking_frequency),
               ("trust_human_recipes", .vInt form.trust_human_recipes),
               ("trust_ai_recipes", .vInt form.trust_ai_recipes),
               ("ai_recipe_usage", .vStr form.ai_recipe_usage),
               ("comments", .vStr (form.comments.getD "")),
               ("attention_check_post", .vStr form.attention_check_post)]) }
        let p2 := { p1 with current_step := 7 }
        (some p2, .redirect "/debriefing")

/-- GET `debriefing` (`main.py:829`), given the resolved participant: access
to step 7 is validated, the participant is marked completed, the completion
time and the attention-check validation result are recorded. -/
def debriefing_h (participant : Option Participant) (now : Int) :
    Option Participant × HResp :=
  match participant with
  | none => (none, .redirect "/")
  | some p =>
      if !(validate_step_access (some p) 7) then
        (some p, .redirect (get_correct_step_redirect (some p)))
      else
        let p1 := { p with completed := true }
        let p2 := { p1 with responses := setKey p1.responses "completed_time" (.timeStr now) }
        let att := validate_attention_checks p2
        let p3 := { p2 with
          responses := setKey p2.responses "attention_check_validation" (.attValidation att) }
        (some p3, .page "debriefing")

/-- Outcome of a full request: resolution through
`get_participant_from_session` followed by a handler. -/
structure OpResult where
  participant : Option Participant
  store : Store
  session : Option String
  response : HResp
deriving DecidableEq, Repr

/-- A full POST `recipe_eval_{step_id}` request: session resolution followed
by `submit_recipe_evaluation_h`.  The handler mutates the same object the
`participants` dict holds (resolution stores participants under their own
`id`), modelled by writing the handler's participant back under its id. -/
def submit_recipe_evaluation_op (store : Store) (sess : Option String)
    (dbData : String → Option Participant) (step_id : Int) (form : EvalForm)
    (recipeCategory : Int → String) (now : Int) : OpResult :=
  let res := get_participant_from_session store sess now dbData
  match res.participant with
  | none => { participant := none, store := res.store, session := res.session,
              response := .redirect "/" }
  | some p =>
      let h := submit_recipe_evaluation_h (some p) step_id form recipeCategory now
      let q := h.1.getD p
      { participant := some q, store := setKey res.store q.id q,
        session := res.session, response := h.2 }

theorem setKey_setKey_same {κ α : Type} [DecidableEq κ] (m : List (κ × α)) (k : κ) (v1 v2 : α) :
    setKey (setKey m k v1) k v2 = setKey m k v2 := by
  induction m with
  | nil => simp [setKey]
  | cons kv rest ih =>
      obtain ⟨k', v'⟩ := kv
      by_cases h : k' = k
      · simp [setKey, h]
      · simp [setKey, h, ih]

theorem stepRoutes_isSome (cs : Int) (h1 : 0 ≤ cs) (h2 : cs ≤ 7) :
    (lookupKey STEP_ROUTES cs).isSome := by
  interval_cases cs <;> decide

/-- C10: with no session present (`participant is None`), `validate_step_access`
permits exactly the demographics step (index 0) and denies every other index,
and `get_correct_step_redirect` targets the demographics route. -/
theorem C10_no_session_only_demographics :
    (∀ s : Int, validate_step_access none s = decide (s = 0)) ∧
    get_correct_step_redirect none = "/demographics" := by
  constructor
  · intro s
    by_cases h : s = 0 <;> simp [validate_step_access, h]
  · rfl

/-- C5: attention-check validation is a pure function of the stored answers
and the fixed expected values — the recipe check compares against the numeric
answer 3 and the post-survey check against the token "gemini" — and
`overall_passed` holds iff no presented check failed (a `not_presented`
check, i.e. a `none` classification, never causes overall failure). -/
theorem C5_attention_checks_deterministic_conjunction (p : Participant) :
    (validate_attention_checks p).recipe_attention_check_passed =
      Option.map (fun a => decide (a = Val.vInt 3))
        (lookupKey (getStepPayload p "recipe_eval_3") "attention_check_recipe") ∧
    (validate_attention_checks p).post_survey_attention_check_passed =
      Option.map (fun a => decide (a = Val.vStr "gemini"))
        (lookupKey (getStepPayload p "post_survey") "attention_check_post") ∧
    ((validate_attention_checks p).overall_passed = true ↔
      (validate_attention_checks p).recipe_attention_check_passed ≠ some false ∧
      (validate_attention_checks p).post_survey_attention_check_passed ≠ some false) := by
  unfold validate_attention_checks
  cases hr : lookupKey (getStepPayload p "recipe_eval_3") "attention_check_recipe" with
  | none =>
      cases hp : lookupKey (getStepPayload p "post_survey") "attention_check_post" with
      | none => simp [hr, hp]
      | some b => by_cases hb : b = Val.vStr "gemini" <;> simp [hr, hp, hb]
  | some a =>
      cases hp : lookupKey (getStepPayload p "post_survey") "attention_check_post" with
      | none => by_cases ha : a = Val.vInt 3 <;> simp [hr, hp, ha]
      | some b =>
          by_cases ha : a = Val.vInt 3 <;> by_cases hb : b = Val.vStr "gemini" <;>
            simp [hr, hp, ha, hb]

/-- C6: each attention check is classified `not_presented` (a `none`
classification) exactly when its field is absent from the stored payload; and
when the post-survey payload lacks the attention-check field while the recipe
check did not fail, the post-survey check is `not_presented` and the overall
result still passes. -/
theorem C6_not_presented_iff_field_absent (p : Participant) :
    ((validate_attention_checks p).recipe_attention_check_passed = none ↔
      lookupKey (getStepPayload p "recipe_eval_3") "attention_check_recipe" = none) ∧
    ((validate_attention_checks p).post_survey_attention_check_passed = none ↔
      lookupKey (getStepPayload p "post_survey") "attention_check_post" = none) ∧
    (lookupKey (getStepPayload p "post_survey") "attention_check_post" = none →
      (validate_attention_checks p).recipe_attention_check_passed ≠ some false →
      (validate_attention_checks p).post_survey_attention_check_passed = none ∧
      (validate_attention_checks p).overall_passed = true) := by
  unfold validate_attention_checks
  cases hr : lookupKey (getStepPayload p "recipe_eval_3") "attention_check_recipe" with
  | none =>
      cases hp : lookupKey (getStepPayload p "post_survey") "attention_check_post" with
      | none => simp [hr, hp]
      | some b => by_cases hb : b = Val.vStr "gemini" <;> simp [hr, hp, hb]
  | some a =>
      cases hp : lookupKey (getStepPayload p "post_survey") "attention_check_post" with
      | none => by_cases ha : a = Val.vInt 3 <;> simp [hr, hp, ha]
      | some b =>
          by_cases ha : a = Val.vInt 3 <;> by_cases hb : b = Val.vStr "gemini" <;>
            simp [hr, hp, ha, hb]

/-- A participant whose recipe-evaluation attention check passed and whose
stored post-survey payload lacks the attention-check field (as produced by the
database-reconstruction path, `main.py:374`–`main.py:384`). -/
def participantC6 : Participant :=
  { id := "p_c6", selected_recipes := [0, 1, 2, 3, 4], current_step := 7,
    responses :=
      [("recipe_eval_3", .payload [("attention_check_recipe", .vInt 3)]),
       ("post_survey", .payload [("cooking_skills", .vInt 5)])],
    completed := false, start_time := some 0, last_activity := some 0,
    step_times := [] }

theorem C6_witness :
    (lookupKey (getStepPayload participantC6 "post_survey") "attention_check_post" = none ∧
     (validate_attention_checks participantC6).recipe_attention_check_passed ≠ some false) ∧
    ((validate_attention_checks participantC6).post_survey_attention_check_passed = none ∧
     (validate_attention_checks participantC6).overall_passed = true) :=
  ⟨⟨by decide, by decide⟩,
    (C6_not_presented_iff_field_absent participantC6).2.2 (by decide) (by decide)⟩

/-- C4: a rejected out-of-order view is answered with a redirect to the
canonical location and leaves the session record unchanged (hence repeated
rejected attempts are idempotent); the redirect target is the debriefing route
for a completed session and otherwise the `STEP_ROUTES` entry of the
session's `current_step`. -/
theorem C4_rejected_redirect_canonical (p : Participant) (s now : Int)
    (hlo : 0 ≤ p.current_step) (hhi : p.current_step ≤ 7)
    (hrej : validate_step_access (some p) s = false) :
    (recipe_evaluation_get_h (some p) s now).2 =
      .redirect (get_correct_step_redirect (some p)) ∧
    (recipe_evaluation_get_h (some p) s now).1 = some p ∧
    (p.completed = true → get_correct_step_redirect (some p) = "/debriefing") ∧
    (p.completed = false →
      lookupKey STEP_ROUTES p.current_step = some (get_correct_step_redirect (some p))) := by
  refine ⟨?_, ?_, ?_, ?_⟩
  · simp [recipe_evaluation_get_h, hrej]
  · simp [recipe_evaluation_get_h, hrej]
  · intro hc
    simp [get_correct_step_redirect, hc]
  · intro hc
    have h8 : ¬ p.current_step ≥ (STEP_ROUTES.length : Int) := by
      simp only [STEP_ROUTES, List.length]
      omega
    have hsome := stepRoutes_isSome p.current_step hlo hhi
    obtain ⟨r, hr⟩ := Option.isSome_iff_exists.mp hsome
    simp [get_correct_step_redirect, hc, h8, hr]

/-- The concrete scenario of the claim: a session at `current_step = 1`
attempting to view step 3. -/
def participantC4 : Participant :=
  { id := "p_c4", selected_recipes := [0, 1, 2, 3, 4], current_step := 1,
    responses := [], completed := false, start_time := some 0,
    last_activity := some 0, step_times := [] }

theorem C4_witness :
    (0 ≤ participantC4.current_step ∧ participantC4.current_step ≤ 7 ∧
     validate_step_access (some participantC4) 3 = false) ∧
    ((recipe_evaluation_get_h (some participantC4) 3 50).2 =
       .redirect (get_correct_step_redirect (some participantC4)) ∧
     (recipe_evaluation_get_h (some participantC4) 3 50).1 = some participantC4 ∧
     (participantC4.completed = true →
       get_correct_step_redirect (some participantC4) = "/debriefing") ∧
     (participantC4.completed = false →
       lookupKey STEP_ROUTES participantC4.current_step =
         some (get_correct_step_redirect (some participantC4)))) ∧
    get_correct_step_redirect (some participantC4) = "/recipe_eval_1" :=
  ⟨⟨by decide, by decide, by decide⟩,
   C4_rejected_redirect_canonical participantC4 3 50 (by decide) (by decide) (by decide),
   by decide⟩

theorem validate_response_time_warning (start : Int) (st : String) (now : Int) :
    (validate_response_time start st now).warning =
      (if strStartsWith st "recipe_eval" && decide (now - start < 30) then some RTWarning.fast
       else if now - start > 600 then some RTWarning.slow else none) := by
  have h1 : MIN_RESPONSE_TIME_SECONDS = 30 := rfl
  have h2 : MAX_RESPONSE_TIME_MINUTES * 60 = 600 := by norm_num [MAX_RESPONSE_TIME_MINUTES]
  unfold validate_response_time
  rw [h1, h2]
  by_cases hc : (strStartsWith st "recipe_eval" && decide (now - start < 30)) = true
  · simp [hc]
  · simp only [hc, if_false]
    by_cases hs : now - start > 600 <;> simp [hs]

/-- C7: response-time classification is a pure function of
`elapsed = now - step_started_at` against the two thresholds — only
recipe-evaluation steps are flagged fast when `elapsed < 30` seconds, the
boundary `elapsed = 30` is not fast, any step with `elapsed > 600` seconds
(10 minutes) is flagged slow — and the flags never block the transition: the
response and the resulting `current_step` of a recipe-evaluation submission do
not depend on the submission time at all. -/
theorem C7_response_time_pure_and_nonblocking (start now n1 n2 s1 s2 : Int)
    (st : String) (pq : Option Participant) (sid : Int) (f : EvalForm)
    (cat : Int → String) :
    ((validate_response_time start st now).warning = some .fast ↔
      strStartsWith st "recipe_eval" = true ∧ now - start < 30) ∧
    (now - start = 30 → (validate_response_time start st now).warning ≠ some .fast) ∧
    (now - start > 600 → (validate_response_time start st now).warning = some .slow) ∧
    (n1 - s1 = n2 - s2 → validate_response_time s1 st n1 = validate_response_time s2 st n2) ∧
    ((submit_recipe_evaluation_h pq sid f cat n1).2 =
       (submit_recipe_evaluation_h pq sid f cat n2).2 ∧
     Option.map Participant.current_step (submit_recipe_evaluation_h pq sid f cat n1).1 =
       Option.map Participant.current_step (submit_recipe_evaluation_h pq sid f cat n2).1) := by
  refine ⟨?_, ?_, ?_, ?_, ?_⟩
  · rw [validate_response_time_warning]
    by_cases hrec : strStartsWith st "recipe_eval" = true <;>
      by_cases hf : now - start < 30 <;>
        by_cases hs : now - start > 600 <;>
          simp [hrec, hf, hs]
  · intro h30
    rw [validate_response_time_warning]
    have hf : ¬ (now - start < 30) := by omega
    by_cases hs : now - start > 600 <;> simp [hf, hs]
  · intro h600
    rw [validate_response_time_warning]
    have hf : ¬ (now - start < 30) := by omega
    simp [hf, h600]
  · intro heq
    unfold validate_response_time
    rw [heq]
  · cases pq with
    | none => simp [submit_recipe_evaluation_h]
    | some p =>
        unfold submit_recipe_evaluation_h
        by_cases hv : validate_step_access (some p) sid = true
        · simp only [hv, Bool.not_true, Bool.false_eq_true, if_false]
          by_cases hb : (sid < 1 || sid > NUM_RECIPES_PER_PARTICIPANT) = true
          · simp [hb]
          · simp only [hb, if_false]
            cases hg : p.selected_recipes.get? (sid - 1).toNat with
            | none =>
                cases hst : lookupKey p.step_times ("recipe_eval_" ++ toString sid) <;>
                  simp [hst, hg]
            | some ri =>
                cases hst : lookupKey p.step_times ("recipe_eval_" ++ toString sid) <;>
                  by_cases hadv : sid ≥ p.current_step <;>
                    by_cases hlast : sid < NUM_RECIPES_PER_PARTICIPANT <;>
                      simp [hst, hg, hadv, hlast]
        · simp [hv]

theorem C7_witness :
    ((validate_response_time 0 "recipe_eval_1" 30).warning ≠ some RTWarning.fast) ∧
    ((validate_response_time 0 "post_survey" 601).warning = some RTWarning.slow) :=
  ⟨(C7_response_time_pure_and_nonblocking 0 30 0 0 0 0 "recipe_eval_1" none 1
      { recipe_name := "", completeness_rating := 0, healthiness_rating := 0,
        tastiness_rating := 0, feasibility_rating := 0, would_make := 0,
        ingredients_complexity := 0, instructions_complexity := 0,
        ingredients_correctness := 0, instructions_correctness := 0,
        nutrition_correctness := 0, comments := none,
        attention_check_recipe := none } (fun _ => "")).2.1 (by decide),
   (C7_response_time_pure_and_nonblocking 0 601 0 0 0 0 "post_survey" none 1
      { recipe_name := "", completeness_rating := 0, healthiness_rating := 0,
        tastiness_rating := 0, feasibility_rating := 0, would_make := 0,
        ingredients_complexity := 0, instructions_complexity := 0,
        ingredients_correctness := 0, instructions_correctness := 0,
        nutrition_correctness := 0, comments := none,
        attention_check_recipe := none } (fun _ => "")).2.2.1 (by decide)⟩

/-- C2 (amended): a submission for a step index beyond `current_step` is
rejected — access validation fails and the caller answers with the canonical
redirect instead of applying the transition — and the rejected attempt leaves
`current_step`, `responses`, `step_times` and `completed` unchanged; however
`last_activity` is refreshed to the access time by session resolution
(`update_participant_activity`, `main.py:316`), exactly as on any other
non-expired access. -/
theorem C2_out_of_order_rejected_amended (store : Store) (pid : String)
    (p : Participant) (dbData : String → Option Participant) (step_id : Int)
    (form : EvalForm) (cat : Int → String) (now : Int)
    (hmem : lookupKey store pid = some p) (hid : p.id = pid)
    (hlive : is_session_expired (some p) now = false)
    (hskip : step_id > p.current_step) :
    validate_step_access (some p) step_id = false ∧
    (submit_recipe_evaluation_op store (some pid) dbData step_id form cat now).response =
      .redirect (get_correct_step_redirect (some p)) ∧
    (submit_recipe_evaluation_op store (some pid) dbData step_id form cat now).participant =
      some { p with last_activity := some now } ∧
    (submit_recipe_evaluation_op store (some pid) dbData step_id form cat now).store =
      setKey store pid { p with last_activity := some now } ∧
    Option.map Participant.current_step
      (submit_recipe_evaluation_op store (some pid) dbData step_id form cat now).participant =
        some p.current_step ∧
    Option.map Participant.responses
      (submit_recipe_evaluation_op store (some pid) dbData step_id form cat now).participant =
        some p.responses ∧
    Option.map Participant.step_times
      (submit_recipe_evaluation_op store (some pid) dbData step_id form cat now).participant =
        some p.step_times ∧
    Option.map Participant.completed
      (submit_recipe_evaluation_op store (some pid) dbData step_id form cat now).participant =
        some p.completed := by
  have hv : validate_step_access (some p) step_id = false := by
    simp only [validate_step_access, decide_eq_false_iff_not, not_le]
    omega
  have hv1 : validate_step_access (some { p with last_activity := some now }) step_id = false := by
    simp only [validate_step_access, decide_eq_false_iff_not, not_le]
    omega
  have hred : get_correct_step_redirect (some { p with last_activity := some now }) =
      get_correct_step_redirect (some p) := by
    simp [get_correct_step_redirect]
  have hop : submit_recipe_evaluation_op store (some pid) dbData step_id form cat now =
      { participant := some { p with last_activity := some now },
        store := setKey store pid { p with last_activity := some now },
        session := some pid,
        response := .redirect (get_correct_step_redirect (some p)) } := by
    unfold submit_recipe_evaluation_op get_participant_from_session
    simp only [hmem, hlive, if_false, Bool.false_eq_true]
    unfold submit_recipe_evaluation_h
    simp only [update_participant_activity, hv1, Bool.not_false, if_true, hred]
    simp [hid, setKey_setKey_same]
  refine ⟨hv, ?_, ?_, ?_, ?_, ?_, ?_, ?_⟩ <;> rw [hop] <;> simp

/-- The session of the counterexample: `current_step = 1`,
`last_activity = 0`. -/
def participantC2 : Participant :=
  { id := "p_c2", selected_recipes := [0, 1, 2, 3, 4], current_step := 1,
    responses := [], completed := false, start_time := some 0,
    last_activity := some 0, step_times := [] }

/-- The form payload used by the counterexamples. -/
def formC2 : EvalForm :=
  { recipe_name := "r", completeness_rating := 1, healthiness_rating := 1,
    tastiness_rating := 1, feasibility_rating := 1, would_make := 1,
    ingredients_complexity := 1, instructions_complexity := 1,
    ingredients_correctness := 1, instructions_correctness := 1,
    nutrition_correctness := 1, comments := none, attention_check_recipe := none }

theorem C2_counterexample :
    validate_step_access (some participantC2) 3 = false ∧
    (submit_recipe_evaluation_op [("p_c2", participantC2)] (some "p_c2")
        (fun _ => none) 3 formC2 (fun _ => "cat") 100).response =
      .redirect "/recipe_eval_1" ∧
    Option.map Participant.last_activity
      (submit_recipe_evaluation_op [("p_c2", participantC2)] (some "p_c2")
        (fun _ => none) 3 formC2 (fun _ => "cat") 100).participant = some (some 100) ∧
    participantC2.last_activity = some 0 := by
  refine ⟨by decide, ?_, ?_, by decide⟩ <;> decide

theorem C2_witness :
    (lookupKey [("p_c2", participantC2)] "p_c2" = some participantC2 ∧
     participantC2.id = "p_c2" ∧
     is_session_expired (some participantC2) 100 = false ∧
     (3 : Int) > participantC2.current_step) ∧
    (validate_step_access (some participantC2) 3 = false ∧
     (submit_recipe_evaluation_op [("p_c2", participantC2)] (some "p_c2")
         (fun _ => none) 3 formC2 (fun _ => "cat") 100).response =
       .redirect (get_correct_step_redirect (some participantC2)) ∧
     (submit_recipe_evaluation_op [("p_c2", participantC2)] (some "p_c2")
         (fun _ => none) 3 formC2 (fun _ => "cat") 100).participant =
       some { participantC2 with last_activity := some 100 } ∧
     (submit_recipe_evaluation_op [("p_c2", participantC2)] (some "p_c2")
         (fun _ => none) 3 formC2 (fun _ => "cat") 100).store =
       setKey [("p_c2", participantC2)] "p_c2" { participantC2 with last_activity := some 100 } ∧
     Option.map Participant.current_step
       (submit_recipe_evaluation_op [("p_c2", participantC2)] (some "p_c2")
         (fun _ => none) 3 formC2 (fun _ => "cat") 100).participant =
         some participantC2.current_step ∧
     Option.map Participant.responses
       (submit_recipe_evaluation_op [("p_c2", participantC2)] (some "p_c2")
         (fun _ => none) 3 formC2 (fun _ => "cat") 100).participant =
         some participantC2.responses ∧
     Option.map Participant.step_times
       (submit_recipe_evaluation_op [("p_c2", participantC2)] (some "p_c2")
         (fun _ => none) 3 formC2 (fun _ => "cat") 100).participant =
         some participantC2.step_times ∧
     Option.map Participant.completed
       (submit_recipe_evaluation_op [("p_c2", participantC2)] (some "p_c2")
         (fun _ => none) 3 formC2 (fun _ => "cat") 100).participant =
         some participantC2.completed) :=
  ⟨⟨by decide, by decide, by decide, by decide⟩,
   C2_out_of_order_rejected_amended [("p_c2", participantC2)] "p_c2" participantC2
     (fun _ => none) 3 formC2 (fun _ => "cat") 100
     (by decide) (by decide) (by decide) (by decide)⟩

/-- C3 (amended): a session whose `last_activity` lies more than the
60-minute threshold in the past is expired on its next access: the expiry
check returns true, resolution yields no participant (identical to no session
found) and clears the request-session binding, and a subsequent operation of
any type behaves exactly as with no session; however the in-memory record is
retained in the `participants` store, not discarded. -/
theorem C3_expired_session_amended (store : Store) (pid : String)
    (p : Participant) (dbData : String → Option Participant) (now t : Int)
    (step_id : Int) (form : EvalForm) (cat : Int → String)
    (hmem : lookupKey store pid = some p)
    (hla : p.last_activity = some t)
    (hexp : now - t > 60 * 60) :
    is_session_expired (some p) now = true ∧
    get_participant_from_session store (some pid) now dbData =
      { participant := none, store := store, session := none } ∧
    lookupKey (get_participant_from_session store (some pid) now dbData).store pid =
      some p ∧
    (submit_recipe_evaluation_op store (some pid) dbData step_id form cat now).participant =
      none ∧
    (submit_recipe_evaluation_op store (some pid) dbData step_id form cat now).store =
      store ∧
    (submit_recipe_evaluation_op store (some pid) dbData step_id form cat now).session =
      none ∧
    (submit_recipe_evaluation_op store (some pid) dbData step_id form cat now).response =
      (submit_recipe_evaluation_op store none dbData step_id form cat now).response := by
  have hex : is_session_expired (some p) now = true := by
    simp only [is_session_expired, hla, SESSION_TIMEOUT_MINUTES, decide_eq_true_eq]
    omega
  have hres : get_participant_from_session store (some pid) now dbData =
      { participant := none, store := store, session := none } := by
    unfold get_participant_from_session
    simp [hmem, hex]
  refine ⟨hex, hres, ?_, ?_, ?_, ?_, ?_⟩
  · rw [hres]
    exact hmem
  · unfold submit_recipe_evaluation_op
    rw [hres]
  · unfold submit_recipe_evaluation_op
    rw [hres]
  · unfold submit_recipe_evaluation_op
    rw [hres]
  · unfold submit_recipe_evaluation_op
    rw [hres]
    unfold get_participant_from_session
    rfl

/-- The expired session of the counterexample: last activity at time 0,
accessed at time 7200 (two hours later). -/
def participantC3 : Participant :=
  { id := "p_c3", selected_recipes := [0, 1, 2, 3, 4], current_step := 2,
    responses := [], completed := false, start_time := some 0,
    last_activity := some 0, step_times := [] }

/-- The form payload used by the C3 instantiations. -/
def formC3 : EvalForm :=
  { recipe_name := "r", completeness_rating := 1, healthiness_rating := 1,
    tastiness_rating := 1, feasibility_rating := 1, would_make := 1,
    ingredients_complexity := 1, instructions_complexity := 1,
    ingredients_correctness := 1, instructions_correctness := 1,
    nutrition_correctness := 1, comments := none, attention_check_recipe := none }

theorem C3_witness :
    (lookupKey [("p_c3", participantC3)] "p_c3" = some participantC3 ∧
     participantC3.last_activity = some 0 ∧
     (7200 : Int) - 0 > 60 * 60) ∧
    (is_session_expired (some participantC3) 7200 = true ∧
     get_participant_from_session [("p_c3", participantC3)] (some "p_c3") 7200
         (fun _ => none) =
       { participant := none, store := [("p_c3", participantC3)], session := none } ∧
     lookupKey (get_participant_from_session [("p_c3", participantC3)] (some "p_c3")
         7200 (fun _ => none)).store "p_c3" = some participantC3 ∧
     (submit_recipe_evaluation_op [("p_c3", participantC3)] (some "p_c3")
         (fun _ => none) 1 formC3 (fun _ => "cat") 7200).participant = none ∧
     (submit_recipe_evaluation_op [("p_c3", participantC3)] (some "p_c3")
         (fun _ => none) 1 formC3 (fun _ => "cat") 7200).store = [("p_c3", participantC3)] ∧
     (submit_recipe_evaluation_op [("p_c3", participantC3)] (some "p_c3")
         (fun _ => none) 1 formC3 (fun _ => "cat") 7200).session = none ∧
     (submit_recipe_evaluation_op [("p_c3", participantC3)] (some "p_c3")
         (fun _ => none) 1 formC3 (fun _ => "cat") 7200).response =
       (submit_recipe_evaluation_op [("p_c3", participantC3)] none
         (fun _ => none) 1 formC3 (fun _ => "cat") 7200).response) :=
  ⟨⟨by decide, by decide, by decide⟩,
   C3_expired_session_amended [("p_c3", participantC3)] "p_c3" participantC3
     (fun _ => none) 7200 0 1 formC3 (fun _ => "cat")
     (by decide) (by decide) (by decide)⟩

theorem C3_counterexample :
    is_session_expired (some participantC3) 7200 = true ∧
    (get_participant_from_session [("p_c3", participantC3)] (some "p_c3") 7200
        (fun _ => none)).participant = none ∧
    lookupKey (get_participant_from_session [("p_c3", participantC3)] (some "p_c3") 7200
        (fun _ => none)).store "p_c3" = some participantC3 := by
  refine ⟨by decide, by decide, by decide⟩

/-- A session that has already passed demographics and the first recipe
evaluation (`current_step = 2`). -/
def participantC1 : Participant :=
  { id := "p_c1", selected_recipes := [0, 1, 2, 3, 4], current_step := 2,
    responses := [], completed := false, start_time := some 0,
    last_activity := some 0, step_times := [] }

/-- C1: the claimed monotonicity of `current_step` fails on the code.  A
participant at `current_step = 2` is allowed to view the demographics page
again (read access to earlier steps is permitted), and the demographics POST
handler performs no step-access validation and unconditionally stores
`current_step = 1` (`main.py:612`) — the stored value 1 is smaller than the
2 the session held before the submission. -/
theorem C1_demographics_resubmission_decreases_current_step :
    validate_step_access (some participantC1) 0 = true ∧
    Option.map Participant.current_step
      (submit_demographics_h (some participantC1) "25" "female" "bachelor" 50).1 =
        some 1 ∧
    participantC1.current_step = 2 := by
  refine ⟨by decide, by decide, by decide⟩

/-- A session ready for debriefing (`current_step = 7`), with both attention
checks answered correctly. -/
def participantC9 : Participant :=
  { id := "p_c9", selected_recipes := [0, 1, 2, 3, 4], current_step := 7,
    responses :=
      [("recipe_eval_3", .payload [("attention_check_recipe", .vInt 3)]),
       ("post_survey", .payload [("attention_check_post", .vStr "gemini")])],
    completed := false, start_time := some 0, last_activity := some 0,
    step_times := [] }

/-- C9: the claimed invariant `completed → current_step = 7` fails on the
code.  Debriefing marks the session completed at `current_step = 7`, but a
subsequent demographics re-submission — unguarded, see `main.py:585` —
resets `current_step` to 1 while leaving `completed` true. -/
theorem C9_completed_session_leaves_terminal_step :
    ((debriefing_h (some participantC9) 90).1.getD participantC9).completed = true ∧
    ((debriefing_h (some participantC9) 90).1.getD participantC9).current_step = 7 ∧
    ((submit_demographics_h
        (some ((debriefing_h (some participantC9) 90).1.getD participantC9))
        "30" "male" "master" 95).1.getD participantC9).completed = true ∧
    ((submit_demographics_h
        (some ((debriefing_h (some participantC9) 90).1.getD participantC9))
        "30" "male" "master" 95).1.getD participantC9).current_step = 1 := by
  refine ⟨by decide, by decide, by decide, by decide⟩

/-- C8: for a non-empty Prolific id, `check_prolific_duplicate` returns
exactly the stored sessions carrying that id, ordered by `start_time`, and
`detect_session_manipulation` flags `multiple_sessions_detected` iff the
count of returned sessions is strictly greater than one (reporting them as
`session_details` in that case). -/
theorem C8_duplicate_detection (pid x : String) (db : List DBRow)
    (hpid : pid ≠ "") :
    (∀ r ∈ check_prolific_duplicate pid db, r.prolific_pid = some pid) ∧
    (∀ r ∈ db, r.prolific_pid = some pid → r ∈ check_prolific_duplicate pid db) ∧
    (check_prolific_duplicate pid db).Pairwise
      (fun a b => a.start_time ≤ b.start_time) ∧
    (check_prolific_duplicate pid db).length =
      (db.filter (fun r => r.prolific_pid = some pid)).length ∧
    ((detect_session_manipulation x (some pid) db).multiple_sessions_detected = true ↔
      (check_prolific_duplicate pid db).length > 1) ∧
    ((check_prolific_duplicate pid db).length > 1 →
      (detect_session_manipulation x (some pid) db).session_details =
        check_prolific_duplicate pid db) := by
  have hdef : check_prolific_duplicate pid db =
      sortByStartTime (db.filter (fun r => r.prolific_pid = some pid)) := by
    unfold check_prolific_duplicate
    simp [hpid]
  refine ⟨?_, ?_, ?_, ?_, ?_, ?_⟩
  · intro r hr
    rw [hdef] at hr
    have := mem_sortByStartTime.mp hr
    exact of_decide_eq_true (List.mem_filter.mp this).2
  · intro r hr hpidr
    rw [hdef]
    exact mem_sortByStartTime.mpr (List.mem_filter.mpr ⟨hr, decide_eq_true hpidr⟩)
  · rw [hdef]
    exact pairwise_sortByStartTime _
  · rw [hdef, length_sortByStartTime]
  · unfold detect_session_manipulation
    simp only [hpid, if_false]
    by_cases hlen : (check_prolific_duplicate pid db).length > 1 <;> simp [hlen]
  · intro hlen
    unfold detect_session_manipulation
    simp [hpid, hlen]

/-- The concrete scenario: two stored sessions sharing the Prolific id
`"PX"`, the later-started one listed first in the table. -/
def dbC8 : List DBRow :=
  [{ participant_id := "p_a", start_time := 5, completed := false,
     current_step := 1, last_activity_at := some 0, prolific_pid := some "PX" },
   { participant_id := "p_b", start_time := 2, completed := false,
     current_step := 0, last_activity_at := some 0, prolific_pid := some "PX" }]

theorem C8_witness :
    ("PX" : String) ≠ "" ∧
    ((∀ r ∈ check_prolific_duplicate "PX" dbC8, r.prolific_pid = some "PX") ∧
     (∀ r ∈ dbC8, r.prolific_pid = some "PX" → r ∈ check_prolific_duplicate "PX" dbC8) ∧
     (check_prolific_duplicate "PX" dbC8).Pairwise
       (fun a b => a.start_time ≤ b.start_time) ∧
     (check_prolific_duplicate "PX" dbC8).length =
       (dbC8.filter (fun r => r.prolific_pid = some "PX")).length ∧
     ((detect_session_manipulation "new_participant" (some "PX") dbC8).multiple_sessions_detected = true ↔
       (check_prolific_duplicate "PX" dbC8).length > 1) ∧
     ((check_prolific_duplicate "PX" dbC8).length > 1 →
       (detect_session_manipulation "new_participant" (some "PX") dbC8).session_details =
         check_prolific_duplicate "PX" dbC8)) ∧
    (check_prolific_duplicate "PX" dbC8).length = 2 ∧
    (detect_session_manipulation "new_participant" (some "PX") dbC8).multiple_sessions_detected = true :=
  ⟨by decide,
   C8_duplicate_detection "PX" "new_participant" dbC8 (by decide),
   by decide, by decide⟩

end SurveyGuard
